import Mathlib

/-!
Verification development for the `bilibili_api.dynamic` module.

The Python source is shallowly embedded: text is `List Char`, Python
dictionaries that become JSON bodies are modelled by a small `JVal` type
whose objects are ordered association lists (so that presence/absence of a
key is observable), exceptions are modelled with `Except PyErr`, and the
network is modelled by oracles (the response a lookup call would return is
a parameter of the embedded function).
-/

set_option autoImplicit false

/-- Python exceptions that the embedded code can raise. -/
inductive PyErr where
  /-- `ValueError`, raised e.g. by `str.index` when the substring is absent. -/
  | valueError
  /-- `AttributeError`, raised by attribute access on an object lacking it. -/
  | attributeError
  /-- raised by `Credential.raise_for_no_sessdata`. -/
  | credentialNoSessdata
  /-- raised by `Credential.raise_for_no_bili_jct`. -/
  | credentialNoBiliJct
  deriving DecidableEq, Repr

/-- Characters the Python regex class `\s` matches (ASCII part; the claims
only involve ASCII text). -/
def isWS (c : Char) : Bool :=
  c = ' ' || c = '\t' || c = '\n' || c = '\r' || c = '\x0b' || c = '\x0c'

/-- Index (counted from `base`) of the first whitespace character of `s`,
scanning left to right. -/
def findWSFrom : List Char → Nat → Option Nat
  | [], _ => none
  | c :: t, base => if isWS c then some base else findWSFrom t (base + 1)

/-- First index `q ≥ i` of `s` holding a whitespace character. -/
def findWS (s : List Char) (i : Nat) : Option Nat :=
  findWSFrom (s.drop i) i

/-- One attempt of the pattern `(?<=@).*?(?=\s)` at the scan position `pos`
of `s`: the least `i ≥ max pos 1` whose previous character is `@` and from
which some whitespace is reachable; returns the span `(i, q)` where `q` is
the first whitespace index at or after `i` (the lazy `.*?` stops there, and
every character strictly before the first whitespace is non-whitespace, so
the `.`-excludes-newline restriction never cuts a match short). -/
def firstMatchFrom (s : List Char) (pos : Nat) : Option (Nat × Nat) :=
  ((List.range (s.length + 1)).filterMap (fun i =>
    if pos ≤ i ∧ 1 ≤ i ∧ s.get? (i - 1) = some '@' then
      (findWS s i).map (fun q => (i, q))
    else none)).head?

/-- Scanning loop of `re.finditer`: after a match spanning `[i, q)` the scan
resumes at `q`, or at `i + 1` when the match was empty.  The scan position
grows by at least one each step, so `s.length + 1` steps of fuel always
suffice. -/
def pyMatchesAux (s : List Char) : Nat → Nat → List (List Char)
  | _, 0 => []
  | pos, fuel + 1 =>
    match firstMatchFrom s pos with
    | none => []
    | some (i, q) =>
      ((s.drop i).take (q - i)) :: pyMatchesAux s (if i < q then q else i + 1) fuel

/-- All tokens produced by `re.finditer(r"(?<=@).*?(?=\s)", s)`, in
encounter order. -/
def pyMatches (s : List Char) : List (List Char) :=
  pyMatchesAux s 0 (s.length + 1)

/-- Fuelled body of `str.replace`: replace every non-overlapping occurrence
of `old` in `s` by `new`, scanning left to right.  (`_parse_at` only ever
calls it with a non-empty `old`, which the guard assumes.) -/
def replaceAllAux (old new : List Char) : Nat → List Char → List Char
  | 0, s => s
  | fuel + 1, s =>
    if old ≠ [] ∧ old.isPrefixOf s then
      new ++ replaceAllAux old new fuel (s.drop old.length)
    else
      match s with
      | [] => []
      | c :: t => c :: replaceAllAux old new fuel t

/-- Python `s.replace(old, new)` for non-empty `old`. -/
def replaceAll (s old new : List Char) : List Char :=
  replaceAllAux old new s.length s

/-- Python `s.index(sub)`: index of the first occurrence of `sub` in `s`,
`none` modelling the `ValueError` raise. -/
def indexOfSub : List Char → List Char → Option Nat
  | s, sub =>
    if sub.isPrefixOf s then some 0
    else
      match s with
      | [] => none
      | _ :: t => (indexOfSub t sub).map (· + 1)

/-- Network oracle for `_parse_at`.  `name2uid uname` is
`user.name2uid(uname)["uid_list"][0]["uid"]`; `none` models the `KeyError`
the code catches when there is no such user.  `userName uid` is the
canonical display name `(await User(uid).get_user_info())["name"]`. -/
structure AtEnv where
  name2uid : List Char → Option Nat
  userName : Nat → List Char

/-- Decimal rendering of a uid, as Python `str(uid)` / f-string formatting. -/
def uidChars (uid : Nat) : List Char := (toString uid).data

/-- Resolution loop of `_parse_at`: for each matched token, skip it if the
uid lookup fails, otherwise record the uid and canonical name and perform
`new_text = new_text.replace(f"@\x7buid\x7d ", f"@\x7bname\x7d ")`. -/
def resolveMentions (env : AtEnv) :
    List (List Char) → List Nat → List (List Char) → List Char →
    List Nat × List (List Char) × List Char
  | [], uids, names, t => (uids, names, t)
  | uname :: rest, uids, names, t =>
    match env.name2uid uname with
    | none => resolveMentions env rest uids names t
    | some uid =>
      let name := env.userName uid
      resolveMentions env rest (uids ++ [uid]) (names ++ [name])
        (replaceAll t ('@' :: uidChars uid ++ [' ']) ('@' :: name ++ [' ']))

/-- One control record `{"location": _, "type": 1, "length": _, "data": _}`
of the AT control array. -/
structure CtrlRec where
  location : Nat
  type : Nat
  length : Nat
  data : Nat
  deriving DecidableEq, Repr

/-- Control-array loop of `_parse_at`: for each resolved name (in encounter
order), `new_text.index(f"@\x7bname\x7d")` — whose failure is an uncaught
`ValueError` — with `length = 2 + len(name)` and `data = int(uid_list[i])`. -/
def buildCtrl (t : List Char) : List Nat → List (List Char) → Except PyErr (List CtrlRec)
  | [], _ => .ok []
  | uid :: uids, names =>
    match names with
    | [] => .error .valueError
    | name :: rest =>
      match indexOfSub t ('@' :: name) with
      | none => .error .valueError
      | some idx =>
        match buildCtrl t uids rest with
        | .error e => .error e
        | .ok tail => .ok (⟨idx, 1, 2 + name.length, uid⟩ :: tail)

/-- Embedding of `_parse_at` (dynamic.py lines 69–111).  Appends the
sentinel space, scans for mention tokens, resolves each (skipping lookup
failures), then builds the uid CSV and the control array from the rewritten
text. -/
def parse_at (env : AtEnv) (text : List Char) :
    Except PyErr (List Char × String × List CtrlRec) :=
  let t := text ++ [' ']
  let ms := pyMatches t
  let r := resolveMentions env ms [] [] t
  let atUids := String.intercalate "," (r.1.map toString)
  match buildCtrl r.2.2 r.1 r.2.1 with
  | .error e => .error e
  | .ok ctrl => .ok (r.2.2, atUids, ctrl)

/-- Minimal JSON value model; objects are ordered association lists so that
presence vs absence of a key (and explicit `null`) is observable. -/
inductive JVal where
  | null
  | num (n : Int)
  | str (s : String)
  | arr (xs : List JVal)
  | obj (fields : List (String × JVal))

/-- One content fragment `{"biz_id": _, "type": _, "raw_text": _}`. -/
structure Fragment where
  biz_id : JVal
  type : Nat
  raw_text : String

/-- Embedding of the `DynmaicContentType` enum (dynamic.py lines 54–66). -/
inductive DynmaicContentType where
  | TEXT
  | EMOJI
  | AT
  | VOTE
  deriving DecidableEq, Repr

/-- Values of the `DynmaicContentType` enum members. -/
def DynmaicContentType.value : DynmaicContentType → Nat
  | .TEXT => 1
  | .EMOJI => 9
  | .AT => 2
  | .VOTE => 4

/-- Embedding of the `SendDynmaicType` enum (dynamic.py lines 42–51). -/
inductive SendDynmaicType where
  | TEXT
  | IMAGE
  deriving DecidableEq, Repr

/-- Values of the `SendDynmaicType` enum members (the `scene` parameter). -/
def SendDynmaicType.value : SendDynmaicType → Nat
  | .TEXT => 1
  | .IMAGE => 2

/-- One image descriptor appended by `add_image`. -/
structure Pic where
  img_src : String
  img_width : Int
  img_height : Int

/-- The attach-card record set by `set_attach_card`. -/
structure AttachCard where
  type : Int
  biz_id : Int
  reserve_source : Int
  reserve_lottery : Int

/-- Modelled from the spec: a resolved user handle from the `user` module
(not under `src/`).  Its id lives in a class-private attribute, which
Python name-mangles with the defining class's name to `_User__uid`; the
instance dictionary is modelled by `PyUser.attrs`. -/
structure PyUser where
  uid : Int

/-- The Python-visible attribute dictionary of a `User` instance (only the
attribute relevant here). -/
def PyUser.attrs (u : PyUser) : List (String × Int) :=
  [("_User__uid", u.uid)]

/-- Modelled from the spec: a topic handle from the `topic` module (not
under `src/`); its id is stored under the mangled name `_Topic__topic_id`. -/
structure PyTopic where
  topic_id : Int

/-- The Python-visible attribute dictionary of a `Topic` instance. -/
def PyTopic.attrs (t : PyTopic) : List (String × Int) :=
  [("_Topic__topic_id", t.topic_id)]

/-- Python attribute access on an instance dictionary: a missing name
raises `AttributeError`. -/
def getattrInt : List (String × Int) → String → Except PyErr Int
  | [], _ => .error .attributeError
  | (k, v) :: rest, name => if k = name then .ok v else getattrInt rest name

/-- The `Union[int, User]` argument of `add_at`. -/
inductive UserArg where
  | id (uid : Int)
  | handle (u : PyUser)

/-- The `Union[Topic, int]` argument of `set_topic`. -/
inductive TopicArg where
  | id (n : Int)
  | handle (t : PyTopic)

/-- State of the `BuildDynmaic` accumulator (dynamic.py lines 294–303);
`options` is an ordered Python dict. -/
structure BuildDynmaic where
  contents : List Fragment
  pics : List Pic
  attach_card : Option AttachCard
  topic : Option Int
  options : List (String × Nat)

/-- State built by `BuildDynmaic.__init__`. -/
def BuildDynmaic.init : BuildDynmaic :=
  ⟨[], [], none, none, []⟩

/-- Embedding of `BuildDynmaic.add_text`. -/
def BuildDynmaic.add_text (b : BuildDynmaic) (text : String) : BuildDynmaic :=
  { b with contents :=
      b.contents ++ [⟨.str "", DynmaicContentType.TEXT.value, text⟩] }

/-- Embedding of `BuildDynmaic.add_at` (dynamic.py lines 316–327).  A `User`
handle goes through `user.__uid`, which inside the `BuildDynmaic` class
body mangles to `_BuildDynmaic__uid` — an attribute a `User` instance does
not have.  Note the appended fragment's type is built from
`DynmaicContentType.EMOJI.value`. -/
def BuildDynmaic.add_at (b : BuildDynmaic) (user : UserArg) : Except PyErr BuildDynmaic :=
  match (match user with
         | .id n => Except.ok n
         | .handle u => getattrInt u.attrs "_BuildDynmaic__uid") with
  | .error e => .error e
  | .ok uid =>
    .ok { b with contents :=
      b.contents ++ [⟨.num uid, DynmaicContentType.EMOJI.value, "@" ++ toString uid⟩] }

/-- Embedding of `BuildDynmaic.add_emoji`. -/
def BuildDynmaic.add_emoji (b : BuildDynmaic) (emoji_name : String) : BuildDynmaic :=
  { b with contents :=
      b.contents ++ [⟨.str "", DynmaicContentType.EMOJI.value, emoji_name⟩] }

/-- Embedding of `BuildDynmaic.add_image`. -/
def BuildDynmaic.add_image (b : BuildDynmaic) (image : Pic) : BuildDynmaic :=
  { b with pics := b.pics ++ [image] }

/-- Embedding of `BuildDynmaic.set_attach_card`. -/
def BuildDynmaic.set_attach_card (b : BuildDynmaic) (oid : Int) : BuildDynmaic :=
  { b with attach_card := some ⟨14, oid, 1, 0⟩ }

/-- Embedding of `BuildDynmaic.set_topic` (dynamic.py lines 390–402); a
`Topic` handle goes through `topic.__topic_id`, mangled to
`_BuildDynmaic__topic_id`. -/
def BuildDynmaic.set_topic (b : BuildDynmaic) (topic : TopicArg) : Except PyErr BuildDynmaic :=
  match (match topic with
         | .id n => Except.ok n
         | .handle t => getattrInt t.attrs "_BuildDynmaic__topic_id") with
  | .error e => .error e
  | .ok n => .ok { b with topic := some n }

/-- Python dict assignment `d[k] = v`: overwrite in place, else append. -/
def dictSet (d : List (String × Nat)) (k : String) (v : Nat) : List (String × Nat) :=
  match d with
  | [] => [(k, v)]
  | (k', v') :: rest =>
    if k' = k then (k, v) :: rest else (k', v') :: dictSet rest k v

/-- Embedding of `BuildDynmaic.set_options`. -/
def BuildDynmaic.set_options (b : BuildDynmaic)
    (up_choose_comment : Bool) (close_comment : Bool) : BuildDynmaic :=
  let o1 := if up_choose_comment then dictSet b.options "up_choose_comment" 1 else b.options
  let o2 := if close_comment then dictSet o1 "close_comment" 1 else o1
  { b with options := o2 }

/-- Embedding of `BuildDynmaic.get_dynamic_type` (dynamic.py lines 418–421). -/
def BuildDynmaic.get_dynamic_type (b : BuildDynmaic) : SendDynmaicType :=
  if b.pics.length ≠ 0 then SendDynmaicType.IMAGE else SendDynmaicType.TEXT

/-- Modelled from the spec: the `Credential` object (from `utils`, not under
`src/`) is a bag of session secrets with fail-fast guard methods; only the
two secrets used by this module are modelled. -/
structure Credential where
  sessdata : Option String
  bili_jct : Option String

/-- Modelled from the spec: guard method failing fast when the session
secret is absent. -/
def Credential.raise_for_no_sessdata (c : Credential) : Except PyErr Unit :=
  if c.sessdata.isSome then .ok () else .error .credentialNoSessdata

/-- Modelled from the spec: guard method failing fast when the CSRF token
is absent. -/
def Credential.raise_for_no_bili_jct (c : Credential) : Except PyErr Unit :=
  if c.bili_jct.isSome then .ok () else .error .credentialNoBiliJct

/-- One HTTP request handed to the shared network dispatcher; the endpoint
is named by its logical key in the module's API table. -/
structure PyRequest where
  method : String
  endpoint : String
  params : List (String × JVal)
  data : JVal

/-- Embedding of the `Dynamic` class state (`__dynamic_id`, `credential`). -/
structure PyDynamic where
  dynamic_id : Int
  credential : Credential

/-- Embedding of `upload_image` (dynamic.py lines 137–164): both credential
guards run before the single upload request is issued; the result is that
request (the image bytes travel in `files`, outside this model). -/
def upload_image (credential : Credential) : Except PyErr PyRequest :=
  match credential.raise_for_no_sessdata with
  | .error e => .error e
  | .ok _ =>
    match credential.raise_for_no_bili_jct with
    | .error e => .error e
    | .ok _ =>
      .ok ⟨"POST", "send.upload_img", [],
        .obj [("biz", .str "new_dyn"), ("category", .str "daily")]⟩

/-- Embedding of `Dynamic.get_reposts` (dynamic.py lines 204–220): the
`offset` parameter is added only when the argument differs from `"0"`. -/
def PyDynamic.get_reposts (d : PyDynamic) (offset : String) : PyRequest :=
  ⟨"GET", "info.repost",
    [("dynamic_id", .num d.dynamic_id)] ++
      (if offset ≠ "0" then [("offset", .str offset)] else []),
    .null⟩

/-- Embedding of `Dynamic.set_like` (dynamic.py lines 239–262).  Both
credential guards run first; then a self-info lookup request is issued
(`selfUid` is the oracle for the `mid` field of its response) and the like
request follows; the result lists the requests in issue order. -/
def PyDynamic.set_like (d : PyDynamic) (status : Bool) (selfUid : Int) :
    Except PyErr (List PyRequest) :=
  match d.credential.raise_for_no_sessdata with
  | .error e => .error e
  | .ok _ =>
    match d.credential.raise_for_no_bili_jct with
    | .error e => .error e
    | .ok _ =>
      .ok [⟨"GET", "user.get_self_info", [], .null⟩,
           ⟨"POST", "operate.like", [],
             .obj [("dynamic_id", .num d.dynamic_id),
                   ("up", .num (if status then 1 else 2)),
                   ("uid", .num selfUid)]⟩]

/-- Embedding of `Dynamic.delete` (dynamic.py lines 264–275). -/
def PyDynamic.delete (d : PyDynamic) : Except PyErr PyRequest :=
  match d.credential.raise_for_no_sessdata with
  | .error e => .error e
  | .ok _ =>
    .ok ⟨"POST", "operate.delete", [],
      .obj [("dynamic_id", .num d.dynamic_id)]⟩

/-- JSON rendering of one content fragment. -/
def Fragment.toJVal (f : Fragment) : JVal :=
  .obj [("biz_id", f.biz_id), ("type", .num f.type), ("raw_text", .str f.raw_text)]

/-- JSON rendering of one image descriptor. -/
def Pic.toJVal (p : Pic) : JVal :=
  .obj [("img_src", .str p.img_src), ("img_width", .num p.img_width),
        ("img_height", .num p.img_height)]

/-- JSON rendering of the attach-card record. -/
def AttachCard.toJVal (a : AttachCard) : JVal :=
  .obj [("type", .num a.type), ("biz_id", .num a.biz_id),
        ("reserve_source", .num a.reserve_source),
        ("reserve_lottery", .num a.reserve_lottery)]

/-- The `dyn_req` object assembled by `send_dynamic` (dynamic.py lines
455–478), in dict insertion order: the unconditional `content`, `scene` and
`meta` keys, then `pics` / `topic` / `option` only when non-empty, and
finally `attach_card`, always present — wrapping the card in a
`common_card` object when one is set and explicit `null` otherwise. -/
def dynReqFields (info : BuildDynmaic) : List (String × JVal) :=
  [("content", .obj [("contents", .arr (info.contents.map Fragment.toJVal))]),
   ("scene", .num info.get_dynamic_type.value),
   ("meta", .obj [("app_meta",
      .obj [("from", .str "create.dynamic.web"), ("mobi_app", .str "web")])])] ++
  (if info.pics.length ≠ 0 then [("pics", .arr (info.pics.map Pic.toJVal))] else []) ++
  (match info.topic with
   | some t => [("topic", .obj [("id", .num t)])]
   | none => []) ++
  (if 0 < info.options.length then
     [("option", .obj (info.options.map (fun p => (p.1, JVal.num p.2))))]
   else []) ++
  [("attach_card",
    match info.attach_card with
    | some card => .obj [("common_card", card.toJVal)]
    | none => .null)]

/-- Embedding of `send_dynamic` (dynamic.py lines 439–480): the sessdata
guard runs before the request is assembled and issued; the ok value is the
single POST request (its `csrf` query parameter carries `credential.bili_jct`,
a plain attribute read that cannot fail). -/
def send_dynamic (info : BuildDynmaic) (credential : Credential) :
    Except PyErr PyRequest :=
  match credential.raise_for_no_sessdata with
  | .error e => .error e
  | .ok _ =>
    .ok ⟨"POST", "send.instant",
      [("csrf", match credential.bili_jct with
                | some j => .str j
                | none => .null)],
      .obj [("dyn_req", .obj (dynReqFields info))]⟩

/-- Value under a key in a JSON object's ordered field list (`none` when
the key is absent). -/
def getKey? : List (String × JVal) → String → Option JVal
  | [], _ => none
  | (k, v) :: rest, key => if k = key then some v else getKey? rest key

/-- Oracle environment in which every user lookup fails. -/
def noUserEnv : AtEnv :=
  ⟨fun _ => none, fun _ => []⟩

/-- Oracle environment where the display name `alice` resolves to uid 42
whose canonical display name is `Alicia` (a stale-alias situation the spec
explicitly allows for). -/
def aliasEnv : AtEnv :=
  ⟨fun s => if s = "alice".data then some 42 else none, fun _ => "Alicia".data⟩

/-- Skipped resolution loop: when every token's uid lookup fails, the loop
returns its accumulators and the text unchanged. -/
theorem resolveMentions_all_none (env : AtEnv) (ms : List (List Char))
    (uids : List Nat) (names : List (List Char)) (t : List Char)
    (h : ∀ tok ∈ ms, env.name2uid tok = none) :
    resolveMentions env ms uids names t = (uids, names, t) := by
  induction ms with
  | nil => rfl
  | cons m rest ih =>
    have hm : env.name2uid m = none := h m (List.mem_cons_self m rest)
    rw [resolveMentions, hm]
    exact ih (fun tok htok => h tok (List.mem_cons_of_mem m htok))

/-- C1: the claim expects `_parse_at` on a text with exactly one resolvable
mention `@alice ` to return a text containing the resolved display name,
one uid, and one control record.  When the canonical display name of the
resolved uid differs from the matched name (`alice` resolves to uid 42
whose canonical name is `Alicia`), the rewrite step looks for `@42 ` —
absent from the text — so the text is never rewritten, and the control
loop's `new_text.index("@Alicia")` raises an uncaught `ValueError` instead
of returning anything. -/
theorem c1_stale_name_raises_value_error :
    parse_at aliasEnv "@alice".data = .error .valueError := by rfl

/-- C2 (counterexample): with no `@` token at all, `_parse_at` does not
return the input text unchanged — it returns the text with the sentinel
space appended. -/
theorem c2_text_not_returned_unchanged :
    parse_at noUserEnv "hello".data = .ok ("hello ".data, "", []) ∧
    "hello ".data ≠ "hello".data := by
  exact ⟨by rfl, by decide⟩

/-- C2 (amended): for every input text in which the mention scanner finds
zero tokens, `_parse_at` returns the input text with the sentinel space
appended, an empty uid CSV, and an empty control array. -/
theorem c2_no_mentions_no_op (env : AtEnv) (text : List Char)
    (h : pyMatches (text ++ [' ']) = []) :
    parse_at env text = .ok (text ++ [' '], "", []) := by
  simp only [parse_at]
  rw [h]
  rfl

/-- C2 witness. -/
theorem c2_no_mentions_no_op_witness :
    parse_at noUserEnv "hi".data = .ok ("hi".data ++ [' '], "", []) :=
  c2_no_mentions_no_op noUserEnv "hi".data (by rfl)

/-- C3: a mention token whose uid lookup fails is silently skipped: when
every token of the text is unresolvable, `_parse_at` succeeds (no error),
rewrites nothing (the output is the input plus the sentinel space), and
contributes nothing to the uid list or the control array. -/
theorem c3_unresolvable_mention_skipped (env : AtEnv) (text : List Char)
    (h : ∀ tok ∈ pyMatches (text ++ [' ']), env.name2uid tok = none) :
    parse_at env text = .ok (text ++ [' '], "", []) := by
  simp only [parse_at]
  rw [resolveMentions_all_none env _ [] [] _ h]
  rfl

/-- C3 witness: the token `bob` is unresolvable in `noUserEnv`. -/
theorem c3_unresolvable_mention_skipped_witness :
    parse_at noUserEnv "hi @bob x".data = .ok ("hi @bob x".data ++ [' '], "", []) :=
  c3_unresolvable_mention_skipped noUserEnv "hi @bob x".data
    (by intro tok _; rfl)

/-- C4: the claim expects `add_at` to append a fragment of the AT
content-type code.  Evaluating `add_at` on a fresh builder with uid 42
shows exactly one fragment is appended with the expected biz-id, but its
type is `DynmaicContentType.EMOJI.value` (9), not the AT code (2). -/
theorem c4_add_at_appends_emoji_typed_fragment :
    BuildDynmaic.init.add_at (.id 42) =
      .ok ⟨[⟨.num 42, 9, "@42"⟩], [], none, none, []⟩ ∧
    DynmaicContentType.AT.value = 2 ∧
    DynmaicContentType.EMOJI.value = 9 ∧
    DynmaicContentType.EMOJI.value ≠ DynmaicContentType.AT.value :=
  ⟨rfl, rfl, rfl, by decide⟩

/-- C6: `get_dynamic_type` reports the IMAGE scene exactly when at least
one image descriptor is present, and the TEXT scene otherwise, whatever the
other builder fields hold. -/
theorem c6_scene_determined_by_pics (b : BuildDynmaic) :
    (b.pics ≠ [] → b.get_dynamic_type = SendDynmaicType.IMAGE) ∧
    (b.pics = [] → b.get_dynamic_type = SendDynmaicType.TEXT) := by
  constructor <;> intro h <;>
    simp [BuildDynmaic.get_dynamic_type, h, List.length_eq_zero]

/-- C6 witness. -/
theorem c6_scene_determined_by_pics_witness :
    (BuildDynmaic.init.add_image ⟨"u", 10, 20⟩).get_dynamic_type =
      SendDynmaicType.IMAGE ∧
    BuildDynmaic.init.get_dynamic_type = SendDynmaicType.TEXT :=
  ⟨(c6_scene_determined_by_pics (BuildDynmaic.init.add_image ⟨"u", 10, 20⟩)).1
      (by simp [BuildDynmaic.init, BuildDynmaic.add_image]),
   (c6_scene_determined_by_pics BuildDynmaic.init).2 rfl⟩

/-- C10: passing a `User` handle to `add_at` or a `Topic` handle to
`set_topic` always raises `AttributeError` — the class-private attribute
read is mangled with `BuildDynmaic`'s name, which the foreign instance does
not carry — while raw integer ids never reach that branch and succeed. -/
theorem c10_handle_extraction_attribute_error
    (b : BuildDynmaic) (u : PyUser) (t : PyTopic) (n : Int) :
    b.add_at (.handle u) = .error .attributeError ∧
    b.set_topic (.handle t) = .error .attributeError ∧
    b.add_at (.id n) =
      .ok { b with contents := b.contents ++
              [⟨.num n, DynmaicContentType.EMOJI.value, "@" ++ toString n⟩] } ∧
    b.set_topic (.id n) = .ok { b with topic := some n } := by
  refine ⟨?_, ?_, rfl, rfl⟩ <;>
    simp [BuildDynmaic.add_at, BuildDynmaic.set_topic, getattrInt,
      PyUser.attrs, PyTopic.attrs]

/-- C5: under the sessdata guard, `send_dynamic` issues one POST whose body
wraps `dynReqFields`; that object omits the `pics`, `topic` and `option`
keys exactly when the corresponding builder field is empty/unset, and
always carries the `attach_card` key — an object wrapping the card under
`common_card` when one is set, and explicit `null` otherwise. -/
theorem c5_send_dynamic_optional_keys (info : BuildDynmaic) (credential : Credential)
    (hs : credential.sessdata.isSome) :
    send_dynamic info credential =
      .ok ⟨"POST", "send.instant",
        [("csrf", match credential.bili_jct with
                  | some j => JVal.str j
                  | none => JVal.null)],
        .obj [("dyn_req", .obj (dynReqFields info))]⟩ ∧
    (getKey? (dynReqFields info) "pics" = none ↔ info.pics = []) ∧
    (getKey? (dynReqFields info) "topic" = none ↔ info.topic = none) ∧
    (getKey? (dynReqFields info) "option" = none ↔ info.options = []) ∧
    (info.attach_card = none →
      getKey? (dynReqFields info) "attach_card" = some JVal.null) ∧
    (∀ card, info.attach_card = some card →
      getKey? (dynReqFields info) "attach_card" =
        some (JVal.obj [("common_card", card.toJVal)])) := by
  refine ⟨?_, ?_⟩
  · simp [send_dynamic, Credential.raise_for_no_sessdata, hs]
  · by_cases hp : info.pics = [] <;>
      rcases ht : info.topic with _ | tv <;>
      by_cases ho : info.options = [] <;>
      rcases hc : info.attach_card with _ | cv <;>
      simp [dynReqFields, getKey?, hp, ht, ho, hc,
        List.length_eq_zero, List.length_pos]

/-- C5 witness. -/
theorem c5_send_dynamic_optional_keys_witness :
    getKey? (dynReqFields BuildDynmaic.init) "pics" = none ∧
    getKey? (dynReqFields BuildDynmaic.init) "attach_card" = some JVal.null :=
  ⟨(c5_send_dynamic_optional_keys BuildDynmaic.init ⟨some "s", some "j"⟩ rfl).2.1.mpr rfl,
   (c5_send_dynamic_optional_keys BuildDynmaic.init ⟨some "s", some "j"⟩ rfl).2.2.2.2.1 rfl⟩

/-- C7: each operation requiring a credential secret fails with the
precondition error when that secret is missing — the result is an error
and no request description is produced (`send_dynamic` and `delete` need
sessdata; `upload_image` and `set_like` need sessdata and then bili_jct). -/
theorem c7_missing_secret_fails_before_request (c : Credential)
    (info : BuildDynmaic) (d_id : Int) (status : Bool) (selfUid : Int) :
    (c.sessdata = none →
      send_dynamic info c = .error .credentialNoSessdata ∧
      (PyDynamic.mk d_id c).delete = .error .credentialNoSessdata ∧
      upload_image c = .error .credentialNoSessdata ∧
      (PyDynamic.mk d_id c).set_like status selfUid = .error .credentialNoSessdata) ∧
    (∀ s, c.sessdata = some s → c.bili_jct = none →
      upload_image c = .error .credentialNoBiliJct ∧
      (PyDynamic.mk d_id c).set_like status selfUid = .error .credentialNoBiliJct) := by
  constructor
  · intro h
    simp [send_dynamic, PyDynamic.delete, upload_image, PyDynamic.set_like,
      Credential.raise_for_no_sessdata, h]
  · intro s hs hj
    simp [upload_image, PyDynamic.set_like, Credential.raise_for_no_sessdata,
      Credential.raise_for_no_bili_jct, hs, hj]

/-- C7 witness. -/
theorem c7_missing_secret_fails_before_request_witness :
    send_dynamic BuildDynmaic.init ⟨none, none⟩ = .error .credentialNoSessdata ∧
    (PyDynamic.mk 7 ⟨none, none⟩).delete = .error .credentialNoSessdata ∧
    upload_image ⟨none, some "j"⟩ = .error .credentialNoSessdata ∧
    upload_image ⟨some "s", none⟩ = .error .credentialNoBiliJct ∧
    (PyDynamic.mk 7 ⟨some "s", none⟩).set_like true 1 = .error .credentialNoBiliJct :=
  ⟨((c7_missing_secret_fails_before_request ⟨none, none⟩ BuildDynmaic.init 7 true 1).1 rfl).1,
   ((c7_missing_secret_fails_before_request ⟨none, none⟩ BuildDynmaic.init 7 true 1).1 rfl).2.1,
   ((c7_missing_secret_fails_before_request ⟨none, some "j"⟩ BuildDynmaic.init 7 true 1).1 rfl).2.2.1,
   ((c7_missing_secret_fails_before_request ⟨some "s", none⟩ BuildDynmaic.init 7 true 1).2 "s" rfl rfl).1,
   ((c7_missing_secret_fails_before_request ⟨some "s", none⟩ BuildDynmaic.init 7 true 1).2 "s" rfl rfl).2⟩

/-- C8: `get_reposts` omits the `offset` query parameter exactly when the
argument is the sentinel `"0"`, and forwards it verbatim otherwise. -/
theorem c8_reposts_offset_sentinel (d : PyDynamic) (offset : String) :
    (offset = "0" → getKey? (d.get_reposts offset).params "offset" = none) ∧
    (offset ≠ "0" →
      getKey? (d.get_reposts offset).params "offset" = some (JVal.str offset)) := by
  constructor <;> intro h <;> simp [PyDynamic.get_reposts, getKey?, h]

/-- C8 witness. -/
theorem c8_reposts_offset_sentinel_witness :
    getKey? ((PyDynamic.mk 7 ⟨none, none⟩).get_reposts "0").params "offset" = none ∧
    getKey? ((PyDynamic.mk 7 ⟨none, none⟩).get_reposts "123").params "offset" =
      some (JVal.str "123") :=
  ⟨(c8_reposts_offset_sentinel (PyDynamic.mk 7 ⟨none, none⟩) "0").1 rfl,
   (c8_reposts_offset_sentinel (PyDynamic.mk 7 ⟨none, none⟩) "123").2 (by decide)⟩

/-- C9: with both secrets present, `set_like` first issues the self-info
lookup and then the like POST, whose body carries `up` as the integer 1
when status is true and 2 when it is false, and `uid` as the acting user's
own id from the lookup. -/
theorem c9_set_like_encoding (d : PyDynamic) (status : Bool) (selfUid : Int)
    (hs : d.credential.sessdata.isSome) (hj : d.credential.bili_jct.isSome) :
    d.set_like status selfUid =
      .ok [⟨"GET", "user.get_self_info", [], .null⟩,
           ⟨"POST", "operate.like", [],
             .obj [("dynamic_id", .num d.dynamic_id),
                   ("up", .num (if status then 1 else 2)),
                   ("uid", .num selfUid)]⟩] := by
  simp [PyDynamic.set_like, Credential.raise_for_no_sessdata,
    Credential.raise_for_no_bili_jct, hs, hj]

/-- C9 witness: status true encodes as 1, status false as 2. -/
theorem c9_set_like_encoding_witness :
    (PyDynamic.mk 7 ⟨some "s", some "j"⟩).set_like true 99 =
      .ok [⟨"GET", "user.get_self_info", [], .null⟩,
           ⟨"POST", "operate.like", [],
             .obj [("dynamic_id", .num 7), ("up", .num 1), ("uid", .num 99)]⟩] ∧
    (PyDynamic.mk 7 ⟨some "s", some "j"⟩).set_like false 99 =
      .ok [⟨"GET", "user.get_self_info", [], .null⟩,
           ⟨"POST", "operate.like", [],
             .obj [("dynamic_id", .num 7), ("up", .num 2), ("uid", .num 99)]⟩] :=
  ⟨c9_set_like_encoding (PyDynamic.mk 7 ⟨some "s", some "j"⟩) true 99 rfl rfl,
   c9_set_like_encoding (PyDynamic.mk 7 ⟨some "s", some "j"⟩) false 99 rfl rfl⟩
